import Mathlib

/-!
Shallow embedding of the audit orchestration core of the
accessibility-checker app.

Embedded sources:
* `src/lib/analyzeLocal.ts` — orchestrator (`analyzeLocal`), cache,
  `gradeFromScore`, `scoreFromCounts`, violation processing, summary assembly;
* `src/lib/openai.ts` — `normalizeRecommendation`, `generateRecommendations`;
* `src/unnamed/part_003` (`lib/recommendations.ts`) — static recommendation
  table and `getRecommendation`;
* `src/unnamed/part_005` (`lib/runLighthouse.ts`) — Engine B wrapper;
* `src/lib/runAxe.ts` — Engine A wrapper;
* `src/app/api/analyze/route.ts` — `buildSummary`.

Modelling conventions: JS numbers that are integer-valued in the code are
`Int`/`Nat`; fallible async calls are `Except Unit`; external effects
(browser engines, the generative service, the clock) are inputs collected in
an environment record, so each run of the orchestrator is a pure function of
the environment, the URL, and the current cache state.  The in-memory `Map`
caches are association lists with JS `Map.set` (replace-or-append) semantics.
-/

/-- Impact union from `src/lib/types.ts`. -/
inductive Impact where
  | critical
  | serious
  | moderate
  | minor
deriving DecidableEq, Repr

/-- Letter grades, from `AccessibilityResults["grade"]` in `src/lib/types.ts`. -/
inductive Grade where
  | A
  | B
  | C
  | D
  | F
deriving DecidableEq, Repr

/-- `Recommendation.priority` literals (`src/lib/types.ts`). -/
inductive Priority where
  | high
  | medium
  | low
deriving DecidableEq, Repr

/-- `Recommendation.effort` literals (`src/lib/types.ts`). -/
inductive Effort where
  | easy
  | moderate
  | complex
deriving DecidableEq, Repr

/-- `codeExample.language` literals produced by the normalizer
(`src/lib/openai.ts` restricts to `css | html | js`). -/
inductive CodeLang where
  | css
  | html
  | js
deriving DecidableEq, Repr

/-- `resources[].type` literals (`src/lib/types.ts`). -/
inductive ResourceType where
  | documentation
  | tool
  | guide
deriving DecidableEq, Repr

/-- Model of an untyped JavaScript/JSON runtime value, used for the untrusted
payloads flowing through `normalizeRecommendation`.  `undefined` is JavaScript
`undefined` (e.g. a missing object property). -/
inductive JsValue where
  | null
  | undefined
  | bool (b : Bool)
  | num (n : Int)
  | str (s : String)
  | arr (elems : List JsValue)
  | obj (fields : List (String × JsValue))

/-- JavaScript truthiness on the modelled values (`null`, `undefined`,
`false`, `0`, `""` are falsy; objects and arrays are always truthy). -/
def truthy : JsValue → Bool
  | .null => false
  | .undefined => false
  | .bool b => b
  | .num n => !(n == 0)
  | .str s => !(s == "")
  | .arr _ => true
  | .obj _ => true

/-- Property access `v[name]`: a present field of an object, otherwise
`undefined` (property access on non-objects yields `undefined` for the
primitives that occur here; access on `null`/`undefined` only happens behind
optional chaining or truthiness guards in the embedded code). -/
def getField (v : JsValue) (name : String) : JsValue :=
  match v with
  | .obj fields =>
    match fields.find? (fun p => p.1 == name) with
    | some p => p.2
    | none => .undefined
  | _ => .undefined

/-- `safe` from `src/lib/openai.ts`:
`(s, fallback = "") => typeof s === "string" ? s : fallback`. -/
def jsSafe (v : JsValue) (fallback : String) : String :=
  match v with
  | .str s => s
  | _ => fallback

/-- `Array.isArray`. -/
def jsIsArray : JsValue → Bool
  | .arr _ => true
  | _ => false

/-- `arr` from `src/lib/openai.ts` with fallback `[]`:
`(a, fallback) => Array.isArray(a) ? a : fallback` — note the cast performs
no element validation, so elements stay untyped `JsValue`s. -/
def jsArrOr : JsValue → List JsValue
  | .arr l => l
  | _ => []

/-- `priority` coercion from `src/lib/openai.ts`:
`p === "high" || p === "medium" || p === "low" ? p : "medium"`. -/
def jsPriority (v : JsValue) : Priority :=
  match v with
  | .str s =>
    if s = "high" then .high
    else if s = "medium" then .medium
    else if s = "low" then .low
    else .medium
  | _ => .medium

/-- `effort` coercion from `src/lib/openai.ts`. -/
def jsEffort (v : JsValue) : Effort :=
  match v with
  | .str s =>
    if s = "easy" then .easy
    else if s = "moderate" then .moderate
    else if s = "complex" then .complex
    else .moderate
  | _ => .moderate

/-- `lang` coercion from `src/lib/openai.ts`:
`l === "css" || l === "html" || l === "js" ? l : "html"`. -/
def jsLang (v : JsValue) : CodeLang :=
  match v with
  | .str s =>
    if s = "css" then .css
    else if s = "html" then .html
    else if s = "js" then .js
    else .html
  | _ => .html

/-- Resource `type` coercion from `src/lib/openai.ts`:
`const t = safe(r?.type, "guide"); t === "tool" || t === "guide" ||
t === "documentation" ? t : "guide"`. -/
def jsResourceType (v : JsValue) : ResourceType :=
  let t := jsSafe v "guide"
  if t = "tool" then .tool
  else if t = "guide" then .guide
  else if t = "documentation" then .documentation
  else .guide

/-- A `resources` entry after normalization (`src/lib/types.ts`). -/
structure ResourceRef where
  title : String
  url : String
  type : ResourceType

/-- `codeExample` after normalization. -/
structure CodeExample where
  before : String
  after : String
  language : CodeLang

/-- Validated `Recommendation` (`src/lib/types.ts`).  `steps` keeps untyped
elements because the TS cast `arr<string>(raw.steps, [])` in
`normalizeRecommendation` checks only `Array.isArray` and never validates the
elements, so at runtime non-string entries pass through unchanged. -/
structure Recommendation where
  id : String
  title : String
  description : String
  priority : Priority
  effort : Effort
  impact : String
  steps : List JsValue
  codeExample : CodeExample
  resources : List ResourceRef

/-- `normalizeRecommendation` from `src/lib/openai.ts` lines 25–58.
`if (!raw || !raw.id) return null`, then field-by-field repair. -/
def normalizeRecommendation (raw : JsValue) : Option Recommendation :=
  if !truthy raw || !truthy (getField raw "id") then none
  else
    some {
      id := jsSafe (getField raw "id") ""
      title := jsSafe (getField raw "title") "General Accessibility Improvement"
      description := jsSafe (getField raw "description")
        "Refer to relevant WCAG and fix accordingly."
      priority := jsPriority (getField raw "priority")
      effort := jsEffort (getField raw "effort")
      impact := jsSafe (getField raw "impact") "Improves overall accessibility"
      steps := jsArrOr (getField raw "steps")
      codeExample := {
        before := jsSafe (getField (getField raw "codeExample") "before") ""
        after := jsSafe (getField (getField raw "codeExample") "after") ""
        language := jsLang (getField (getField raw "codeExample") "language") }
      resources := (jsArrOr (getField raw "resources")).map fun r =>
        { title := jsSafe (getField r "title") ""
          url := jsSafe (getField r "url") ""
          type := jsResourceType (getField r "type") } }

/-- Nodes of a processed violation (`src/lib/types.ts`,
`AccessibilityViolation.nodes` after the defaulting in `analyzeLocal`). -/
structure ViolationNode where
  target : List String
  html : String
  failureSummary : String

/-- Processed violation (`src/lib/types.ts` `AccessibilityViolation`). -/
structure AccessibilityViolation where
  id : String
  impact : Impact
  description : String
  help : String
  helpUrl : String
  nodes : List ViolationNode
  recommendation : Option Recommendation

/-- `AccessibilityPass` (`src/lib/types.ts`). -/
structure AccessibilityPass where
  id : String
  description : String
  help : Option String

/-- `summary` block of `AccessibilityResults` (`src/lib/types.ts`). -/
structure Summary where
  total : Nat
  violations : Nat
  passes : Nat
  critical : Nat
  serious : Nat
  moderate : Nat
  minor : Nat

/-- `AccessibilityResults` (`src/lib/types.ts`). -/
structure AccessibilityResults where
  url : String
  score : Int
  grade : Grade
  violations : List AccessibilityViolation
  passes : List AccessibilityPass
  summary : Summary
  analyzedAt : String
  testEngine : String

/-- The static recommendation table from `lib/recommendations.ts`
(`src/unnamed/part_003`), transcribed entry by entry. -/
def recommendationsTable : List (String × Recommendation) := [
  ("html-has-lang",
    { id := "html-has-lang"
      title := "Specify Page Language"
      description := "Ensure the <html> element declares a valid lang attribute."
      priority := .medium
      effort := .easy
      impact := "Improves pronunciation and braille translation"
      steps := [.str "Add lang attribute", .str "Update dynamically for locale switch"]
      codeExample := { before := "<html>", after := "<html lang=\"en\">", language := .html }
      resources := [
        { title := "WCAG: Language of Page"
          url := "https://www.w3.org/WAI/WCAG21/Understanding/language-of-page.html"
          type := .documentation }] }),
  ("document-title",
    { id := "document-title"
      title := "Add a Descriptive <title>"
      description := "Ensure document has a meaningful <title> element."
      priority := .medium
      effort := .easy
      impact := "Improves identification of pages in assistive tech"
      steps := [.str "Provide unique title per route", .str "Include brand and page purpose"]
      codeExample := { before := "<title></title>", after := "<title>Pricing – Acme</title>", language := .html }
      resources := [
        { title := "HTML Standard: title"
          url := "https://html.spec.whatwg.org/multipage/semantics.html#the-title-element"
          type := .documentation }] }),
  ("aria-roles",
    { id := "aria-roles"
      title := "Use Valid ARIA Roles"
      description := "Ensure elements use permitted ARIA roles."
      priority := .high
      effort := .moderate
      impact := "Prevents misleading semantics for AT"
      steps := [.str "Remove invalid roles", .str "Prefer native semantics over ARIA"]
      codeExample := { before := "<div role=\"button\" tabindex=\"0\">", after := "<button>", language := .html }
      resources := [
        { title := "ARIA in HTML"
          url := "https://www.w3.org/TR/html-aria/"
          type := .documentation }] }),
  ("aria-allowed-attr",
    { id := "aria-allowed-attr"
      title := "Use Allowed ARIA Attributes"
      description := "Ensure ARIA attributes match the role\'s allowed states and properties."
      priority := .medium
      effort := .moderate
      impact := "Improves AT consistency"
      steps := [.str "Check role\'s allowed attributes", .str "Remove unsupported aria-*"]
      codeExample := { before := "<div role=\"img\" aria-checked=\"true\">", after := "<div role=\"img\" aria-label=\"Logo\">", language := .html }
      resources := [
        { title := "ARIA Spec"
          url := "https://www.w3.org/TR/wai-aria-1.2/"
          type := .documentation }] }),
  ("label",
    { id := "label"
      title := "Label Form Controls"
      description := "Every form control must have a programmatic label."
      priority := .high
      effort := .easy
      impact := "Enables AT users to understand form fields"
      steps := [.str "Use <label for>", .str "Or aria-label/aria-labelledby"]
      codeExample := { before := "<input id=\"email\">", after := "<label for=\"email\">Email</label><input id=\"email\">", language := .html }
      resources := [
        { title := "WAI Forms"
          url := "https://www.w3.org/WAI/tutorials/forms/"
          type := .guide }] }),
  ("form-field-multiple-labels",
    { id := "form-field-multiple-labels"
      title := "Avoid Multiple Labels"
      description := "Each form control should have a single accessible name."
      priority := .medium
      effort := .easy
      impact := "Prevents conflicting announcements in AT"
      steps := [.str "Ensure one computed name", .str "Remove duplicate labels"]
      codeExample := { before := "<input aria-label=\"Email\" aria-labelledby=\"id1 id2\">", after := "<input aria-labelledby=\"id1\">", language := .html }
      resources := [
        { title := "Accessible Name & Description"
          url := "https://www.w3.org/TR/accname-1.2/"
          type := .documentation }] })]

/-- `getRecommendation` from `lib/recommendations.ts` (`src/unnamed/part_003`):
plain record lookup, `undefined` (here `none`) when the id is unknown. -/
def getRecommendation (id : String) : Option Recommendation :=
  (recommendationsTable.find? (fun p => p.1 == id)).map (fun p => p.2)

/-- `PendingViolation` (`src/lib/openai.ts` lines 10–16); `nodes` elements are
the already-processed node objects `analyzeLocal` passes along (their `html`
and `failureSummary` are strings after defaulting, so `?? ""` in the payload
builder is the same as reading the field). -/
structure PendingViolation where
  id : String
  description : String
  help : Option String
  helpUrl : Option String
  nodes : Option (List ViolationNode)

/-- One element of the request payload built by `generateRecommendations`
(`src/lib/openai.ts` lines 72–78). -/
structure PayloadItem where
  id : String
  description : String
  help : Option String
  helpUrl : Option String
  html : String
deriving DecidableEq, Repr

/-- The payload embedded (as JSON) in the single generative-service request
that `generateRecommendations` issues:
`pending.map(v => ({id, description, help, helpUrl, html: v.nodes?.[0]?.html ?? ""}))`. -/
def requestPayload (pending : List PendingViolation) : List PayloadItem :=
  pending.map fun v =>
    { id := v.id
      description := v.description
      help := v.help
      helpUrl := v.helpUrl
      html := (((v.nodes.getD []).head?).map (fun n => n.html)).getD "" }

/-- Observable outcome of the one `openai.chat.completions.create` call:
either the call rejects (`failure`), or it resolves and `JSON.parse` of the
returned content either yields a JSON value (`success (some v)`) or throws
(`success none`, e.g. non-JSON text in the body). -/
inductive CallOutcome where
  | failure
  | success (parsed : Option JsValue)

/-- `Object.values(obj)` for the JSON values that can reach it here. -/
def jsObjectValues : JsValue → JsValue
  | .obj fields => .arr (fields.map (fun p => p.2))
  | .str s => .arr (s.toList.map (fun c => .str (String.singleton c)))
  | _ => .arr []

/-- The `try` block of `generateRecommendations` (`src/lib/openai.ts` lines
103–113): parse the content, accept both a bare array and `{ items: [...] }`
(falling back to `Object.values`), normalize each candidate, and degrade to
`[]` when anything in the block throws (`JSON.parse` failure, property access
on `null`, or `.map` on a non-array). -/
def parseGenerated (parsed : Option JsValue) : List Recommendation :=
  match parsed with
  | none => []
  | some obj =>
    match obj with
    | .null => []
    | .arr elems => elems.filterMap normalizeRecommendation
    | _ =>
      let itemsv :=
        match getField obj "items" with
        | .undefined => jsObjectValues obj
        | .null => jsObjectValues obj
        | v => v
      match itemsv with
      | .arr elems => elems.filterMap normalizeRecommendation
      | _ => []

/-- The in-place attachment loop of `generateRecommendations`:
`violations.find(v => v.id === r.id && !v.recommendation)` gets
`recommendation = r`. -/
def attachFirst : List AccessibilityViolation → Recommendation → List AccessibilityViolation
  | [], _ => []
  | v :: vs, r =>
    if v.id == r.id && v.recommendation.isNone then
      { v with recommendation := some r } :: vs
    else
      v :: attachFirst vs r

/-- JS `Map.set` on an association list: replace the value of an existing
key, otherwise append. -/
def mapSet {α : Type} : List (String × α) → String → α → List (String × α)
  | [], k, x => [(k, x)]
  | (k', x') :: rest, k, x =>
    if k' == k then (k, x) :: rest else (k', x') :: mapSet rest k x

/-- `generateRecommendations` from `src/lib/openai.ts` lines 63–123.
Returns the list of requests issued (always exactly the one request carrying
`requestPayload pending`; the constant prompt strings around the payload are
elided) paired with the outcome: the service call sits *outside* the
`try`/`catch`, so `CallOutcome.failure` propagates as an error, while a parse
failure degrades to `generated = []`; on success the recommendations are
folded into the recommendation cache (`recoCache.set`) and attached to the
first matching unresolved violation. -/
def generateRecommendations (outcome : CallOutcome) (pending : List PendingViolation)
    (violations : List AccessibilityViolation)
    (recoCache : List (String × Recommendation)) :
    List (List PayloadItem) ×
      Except Unit (List Recommendation × List AccessibilityViolation × List (String × Recommendation)) :=
  let requests := [requestPayload pending]
  match outcome with
  | .failure => (requests, .error ())
  | .success parsed =>
    let generated := parseGenerated parsed
    let merged := generated.foldl
      (fun acc r => (attachFirst acc.1 r, mapSet acc.2 r.id r))
      (violations, recoCache)
    (requests, .ok (generated, merged.1, merged.2))

/-- `gradeFromScore` from `src/lib/analyzeLocal.ts` lines 13–19. -/
def gradeFromScore (score : Int) : Grade :=
  if score ≥ 90 then .A
  else if score ≥ 80 then .B
  else if score ≥ 70 then .C
  else if score ≥ 60 then .D
  else .F

/-- Severity counters (`const counts: Record<Impact, number>` in
`src/lib/analyzeLocal.ts` lines 87–92 and the identical record in
`buildSummary`, `src/app/api/analyze/route.ts` line 168). -/
structure Counts where
  critical : Nat
  serious : Nat
  moderate : Nat
  minor : Nat
deriving DecidableEq, Repr

/-- One step of the counting loop `for (const v of violations) counts[v.impact]++`. -/
def countStep (c : Counts) (v : AccessibilityViolation) : Counts :=
  match v.impact with
  | .critical => { c with critical := c.critical + 1 }
  | .serious => { c with serious := c.serious + 1 }
  | .moderate => { c with moderate := c.moderate + 1 }
  | .minor => { c with minor := c.minor + 1 }

/-- The severity-counting loop over a violation list. -/
def countImpacts (vs : List AccessibilityViolation) : Counts :=
  vs.foldl countStep ⟨0, 0, 0, 0⟩

/-- `scoreFromCounts` from `src/lib/analyzeLocal.ts` lines 96–105:
`Math.round(Math.max(100 - totalPenalty, 0))`; all quantities are integers,
so `Math.round` is the identity here. -/
def scoreFromCounts (c : Counts) : Int :=
  let totalPenalty : Int :=
    (c.critical : Int) * 20 + (c.serious : Int) * 10 +
      (c.moderate : Int) * 5 + (c.minor : Int) * 2
  max (100 - totalPenalty) 0

/-- `buildSummary` from `src/app/api/analyze/route.ts` lines 164–178. -/
def buildSummary (violations : List AccessibilityViolation)
    (passes : List AccessibilityPass) : Summary :=
  let counts := countImpacts violations
  { total := violations.length + passes.length
    violations := violations.length
    passes := passes.length
    critical := counts.critical
    serious := counts.serious
    moderate := counts.moderate
    minor := counts.minor }

/-- Observable behaviour of the external `lighthouse(...)` invocation inside
`runLighthouse` (`src/unnamed/part_005`): the launcher or the audit can throw
(`threw`), or the audit resolves and `result?.lhr?.categories?.accessibility
?.score` either is a number — already scaled to `Math.round(score * 100)`
here — or is absent. -/
inductive LighthouseRaw where
  | threw
  | result (score : Option Int)

/-- `runLighthouse` from `src/unnamed/part_005` (`lib/runLighthouse.ts`):
`typeof score === "number" ? Math.round(score * 100) : null`; the `finally`
block only kills the browser, so a thrown error propagates to the caller. -/
def runLighthouse : LighthouseRaw → Except Unit (Option Int)
  | .threw => .error ()
  | .result s => .ok s

/-- Raw node of an Engine A violation. -/
structure RawAxeNode where
  target : Option (List String)
  html : Option String
  failureSummary : Option String

/-- Raw Engine A violation as consumed by `analyzeLocal` (the `any`-typed
objects returned by `runAxe`); optional fields model `undefined`/`null`
values the code defends against with `||` defaults. -/
structure RawAxeViolation where
  id : String
  impact : Option Impact
  description : Option String
  help : String
  helpUrl : String
  nodes : Option (List RawAxeNode)

/-- Observable behaviour of the external rule-engine run inside `runAxe`
(`src/lib/runAxe.ts`): navigation/injection/evaluation can throw, or the
in-page run resolves and `result?.violations` is a list or absent. -/
inductive AxeRaw where
  | threw
  | result (violations : Option (List RawAxeViolation))

/-- `runAxe` from `src/lib/runAxe.ts`: returns `result?.violations ?? []`;
the `finally` block only closes the page/context, so a thrown error
propagates to the caller. -/
def runAxe : AxeRaw → Except Unit (List RawAxeViolation)
  | .threw => .error ()
  | .result vs => .ok (vs.getD [])

/-- The violation-processing map in `analyzeLocal` (lines 54–68):
defaults for `impact`/`description`/`nodes` fields and immediate static
recommendation lookup. -/
def processAxeViolation (v : RawAxeViolation) : AccessibilityViolation :=
  { id := v.id
    impact := v.impact.getD .moderate
    description := v.description.getD ""
    help := v.help
    helpUrl := v.helpUrl
    nodes := (v.nodes.getD []).map fun n =>
      { target := n.target.getD []
        html := n.html.getD ""
        failureSummary := n.failureSummary.getD "" }
    recommendation := getRecommendation v.id }

/-- External-world inputs of one `analyzeLocal` call: the Engine A / Engine B
/ generative-service outcomes for this audit, `Date.now()` at entry, and the
`new Date().toISOString()` stamp. -/
structure AnalyzeEnv where
  lighthouse : LighthouseRaw
  axe : AxeRaw
  openai : CallOutcome
  now : Nat
  analyzedAt : String

/-- Result assembly in the queued job of `analyzeLocal`
(`src/lib/analyzeLocal.ts` lines 87–126): count severities over the final
(in-place updated) violation list `violations'`, pick the score as
`lhScore || scoreFromCounts(counts)` (JS `||`: `null` and `0` are falsy),
grade it, and build the `AccessibilityResults` with `passes = []`. -/
def assembleResult (url ts : String) (lhScore : Option Int)
    (violations' : List AccessibilityViolation) : AccessibilityResults :=
  let counts := countImpacts violations'
  let score : Int :=
    match lhScore with
    | some s => if s == 0 then scoreFromCounts counts else s
    | none => scoreFromCounts counts
  { url := url
    score := score
    grade := gradeFromScore score
    violations := violations'
    passes := []
    summary := {
      total := violations'.length
      violations := violations'.length
      passes := 0
      critical := counts.critical
      serious := counts.serious
      moderate := counts.moderate
      minor := counts.minor }
    analyzedAt := ts
    testEngine := "axe+lighthouse" }

/-- The queued job body of `analyzeLocal` (`src/lib/analyzeLocal.ts` lines
47–127): run both engines (`Promise.all` rejects if either rejects), process
violations, collect the ones without a static recommendation, call
`generateRecommendations` (a fresh `recoCache` Map is created per audit), and
assemble the result from the updated violation list. -/
def runPipeline (env : AnalyzeEnv) (url : String) : Except Unit AccessibilityResults :=
  match runLighthouse env.lighthouse, runAxe env.axe with
  | .error e, _ => .error e
  | .ok _, .error e => .error e
  | .ok lhScore, .ok axeViolations =>
    let violations := axeViolations.map processAxeViolation
    let pending : List PendingViolation :=
      (violations.filter (fun v => v.recommendation.isNone)).map fun v =>
        { id := v.id
          description := v.description
          help := some v.help
          helpUrl := some v.helpUrl
          nodes := some v.nodes }
    match (generateRecommendations env.openai pending violations []).2 with
    | .error e => .error e
    | .ok (_, violations', _) => .ok (assembleResult url env.analyzedAt lhScore violations')

/-- The base64 alphabet used by `Buffer.toString("base64")`. -/
def base64Table : List Char :=
  "ABCDEFGHIJKLMNOPQRSTUVWXYZabcdefghijklmnopqrstuvwxyz0123456789+/".toList

/-- One base64 digit. -/
def b64c (n : Nat) : Char := base64Table.getD n 'A'

/-- Standard base64 of a byte list (RFC 4648, with padding), as produced by
`Buffer.from(url).toString("base64")`. -/
def base64Encode : List Nat → String
  | [] => ""
  | [a] =>
    String.mk [b64c (a / 4), b64c (a % 4 * 16)] ++ "=="
  | [a, b] =>
    String.mk [b64c (a / 4), b64c (a % 4 * 16 + b / 16), b64c (b % 16 * 4)] ++ "="
  | a :: b :: c :: rest =>
    String.mk [b64c (a / 4), b64c (a % 4 * 16 + b / 16),
      b64c (b % 16 * 4 + c / 64), b64c (c % 64)] ++ base64Encode rest

/-- `cacheKey` from `src/lib/analyzeLocal.ts` lines 22–25:
`"accessibility:" + base64(utf8 bytes of url)`. -/
def cacheKey (url : String) : String :=
  "accessibility:" ++ base64Encode (url.toUTF8.toList.map (fun b => b.toNat))

/-- An entry of the in-memory audit cache (`localCache`,
`src/lib/analyzeLocal.ts` lines 28–31). -/
structure CacheEntry where
  data : AccessibilityResults
  expires : Nat

/-- The audit cache: a JS `Map` keyed by `cacheKey(url)`. -/
abbrev LocalCache := List (String × CacheEntry)

/-- `localCache.get`. -/
def cacheLookup (cache : LocalCache) (k : String) : Option CacheEntry :=
  (cache.find? (fun p => p.1 == k)).map (fun p => p.2)

/-- `CACHE_TTL_MS = 10 * 60 * 1000` (`src/lib/analyzeLocal.ts` line 34). -/
def CACHE_TTL_MS : Nat := 10 * 60 * 1000

/-- The cache-miss path of `analyzeLocal`: run the queued job; on success
store the result under the key with `expires = now + CACHE_TTL_MS` (`now`
captured at entry) and return it; a rejection propagates before the
`localCache.set` on line 129 runs, so the cache is left untouched. -/
def runFreshAnalysis (env : AnalyzeEnv) (url : String) (cache : LocalCache) :
    Except Unit AccessibilityResults × LocalCache :=
  match runPipeline env url with
  | .error e => (.error e, cache)
  | .ok data =>
    (.ok data, mapSet cache (cacheKey url) { data := data, expires := env.now + CACHE_TTL_MS })

/-- `analyzeLocal` from `src/lib/analyzeLocal.ts` lines 40–131: cache lookup
(`hit.expires > now` keeps the entry live), otherwise the full pipeline.  The
bounded-concurrency queue admission (`queue.add`, concurrency 2) is modelled
as direct execution of the job body — the claims here concern a single
call's data flow, not inter-audit scheduling. -/
def analyzeLocal (env : AnalyzeEnv) (url : String) (cache : LocalCache) :
    Except Unit AccessibilityResults × LocalCache :=
  match cacheLookup cache (cacheKey url) with
  | some hit =>
    if env.now < hit.expires then (.ok hit.data, cache)
    else runFreshAnalysis env url cache
  | none => runFreshAnalysis env url cache

/-- No live cache entry for `url` at time `t` (either no entry at all, or the
stored expiry is not in the future). -/
def noValidHit (cache : LocalCache) (url : String) (t : Nat) : Prop :=
  ∀ hit, cacheLookup cache (cacheKey url) = some hit → hit.expires ≤ t

/-- `isPriorityLiteral v` iff JS `v === "high" || v === "medium" || v === "low"`. -/
def isPriorityLiteral (v : JsValue) : Prop :=
  v = .str "high" ∨ v = .str "medium" ∨ v = .str "low"

/-- `isEffortLiteral v` iff JS `v === "easy" || v === "moderate" || v === "complex"`. -/
def isEffortLiteral (v : JsValue) : Prop :=
  v = .str "easy" ∨ v = .str "moderate" ∨ v = .str "complex"

/-- `isLangLiteral v` iff JS `v === "css" || v === "html" || v === "js"`. -/
def isLangLiteral (v : JsValue) : Prop :=
  v = .str "css" ∨ v = .str "html" ∨ v = .str "js"

/-- `isResourceTypeLiteral v` iff the resource `type` check accepts `v` as is. -/
def isResourceTypeLiteral (v : JsValue) : Prop :=
  v = .str "documentation" ∨ v = .str "tool" ∨ v = .str "guide"

/-- Concrete run for the Engine-B-throws scenario: Engine B rejects, Engine A
returns no violations, the generative call parses to an empty object. -/
def cx2Env : AnalyzeEnv :=
  { lighthouse := .threw
    axe := .result (some [])
    openai := .success (some (.obj []))
    now := 0
    analyzedAt := "t" }

/-- Concrete run where Engine B resolves with no numeric score. -/
def w2Env : AnalyzeEnv :=
  { lighthouse := .result none
    axe := .result (some [])
    openai := .success (some (.obj []))
    now := 0
    analyzedAt := "t" }

/-- Concrete run where Engine B reports the (valid) score `0`. -/
def cx3Env : AnalyzeEnv :=
  { lighthouse := .result (some 0)
    axe := .result (some [])
    openai := .success none
    now := 0
    analyzedAt := "t" }

/-- Concrete run where Engine B reports the score `50`. -/
def w3Env : AnalyzeEnv :=
  { lighthouse := .result (some 50)
    axe := .result (some [])
    openai := .success none
    now := 0
    analyzedAt := "t" }

/-- The audit result of `runPipeline w3Env "u"`. -/
def w3res : AccessibilityResults :=
  { url := "u"
    score := 50
    grade := .F
    violations := []
    passes := []
    summary := { total := 0, violations := 0, passes := 0,
                 critical := 0, serious := 0, moderate := 0, minor := 0 }
    analyzedAt := "t"
    testEngine := "axe+lighthouse" }

/-- An untrusted candidate carrying an id, a wrong-typed `priority`, and a
non-array `steps`. -/
def raw4 : JsValue :=
  .obj [("id", .str "x"), ("priority", .str "urgent"), ("steps", .num 3)]

/-- First call of the caching scenario (engines succeed, time 0). -/
def w5Env1 : AnalyzeEnv :=
  { lighthouse := .result (some 50)
    axe := .result (some [])
    openai := .success none
    now := 0
    analyzedAt := "t" }

/-- Second call of the caching scenario, 1 ms later: every engine would fail,
so any engine work would be visible. -/
def w5Env2 : AnalyzeEnv :=
  { lighthouse := .threw
    axe := .threw
    openai := .failure
    now := 1
    analyzedAt := "t2" }

/-- Third call of the caching scenario, exactly at the expiry timestamp. -/
def w5Env3 : AnalyzeEnv :=
  { lighthouse := .threw
    axe := .threw
    openai := .failure
    now := 600000
    analyzedAt := "t3" }

/-- The audit result stored by the first call of the caching scenario. -/
def w5res : AccessibilityResults :=
  { url := "u"
    score := 50
    grade := .F
    violations := []
    passes := []
    summary := { total := 0, violations := 0, passes := 0,
                 critical := 0, serious := 0, moderate := 0, minor := 0 }
    analyzedAt := "t"
    testEngine := "axe+lighthouse" }

/-- The cache state after the first call of the caching scenario. -/
def w5cache1 : LocalCache := [(cacheKey "u", { data := w5res, expires := 600000 })]

/-- A pending violation used twice in one batch. -/
def dupPending : PendingViolation :=
  { id := "dup", description := "", help := none, helpUrl := none, nodes := none }

/-- A raw Engine A violation whose rule id is not in the static table. -/
def w7raw : RawAxeViolation :=
  { id := "image-alt"
    impact := some .critical
    description := none
    help := "h"
    helpUrl := "hu"
    nodes := none }

/-- Concrete run with one critical violation and Engine B score 77. -/
def w7Env : AnalyzeEnv :=
  { lighthouse := .result (some 77)
    axe := .result (some [w7raw])
    openai := .success none
    now := 0
    analyzedAt := "t" }

/-- The audit result of `runPipeline w7Env "u"`. -/
def w7res : AccessibilityResults :=
  { url := "u"
    score := 77
    grade := .C
    violations := [{ id := "image-alt", impact := .critical, description := "",
                     help := "h", helpUrl := "hu", nodes := [], recommendation := none }]
    passes := []
    summary := { total := 1, violations := 1, passes := 0,
                 critical := 1, serious := 0, moderate := 0, minor := 0 }
    analyzedAt := "t"
    testEngine := "axe+lighthouse" }

/-- Concrete run where Engine A rejects (the queued job throws). -/
def w10Env : AnalyzeEnv :=
  { lighthouse := .result (some 50)
    axe := .threw
    openai := .success none
    now := 0
    analyzedAt := "t" }

/-- A later call after the failed one. -/
def w10Env2 : AnalyzeEnv :=
  { lighthouse := .threw
    axe := .threw
    openai := .failure
    now := 5
    analyzedAt := "t" }

/-! ## Helper lemmas -/

theorem countImpacts_foldl (vs : List AccessibilityViolation) : ∀ c : Counts,
    ((vs.foldl countStep c).critical =
        c.critical + (vs.filter (fun v => v.impact == Impact.critical)).length) ∧
    ((vs.foldl countStep c).serious =
        c.serious + (vs.filter (fun v => v.impact == Impact.serious)).length) ∧
    ((vs.foldl countStep c).moderate =
        c.moderate + (vs.filter (fun v => v.impact == Impact.moderate)).length) ∧
    ((vs.foldl countStep c).minor =
        c.minor + (vs.filter (fun v => v.impact == Impact.minor)).length) := by
  induction vs with
  | nil => intro c; simp
  | cons v vs ih =>
    intro c
    rw [List.foldl_cons]
    obtain ⟨h1, h2, h3, h4⟩ := ih (countStep c v)
    rw [h1, h2, h3, h4]
    cases hv : v.impact <;>
      simp [countStep, hv, List.filter_cons] <;>
      omega

theorem countImpacts_eq_filter (vs : List AccessibilityViolation) :
    (countImpacts vs).critical = (vs.filter (fun v => v.impact == Impact.critical)).length ∧
    (countImpacts vs).serious = (vs.filter (fun v => v.impact == Impact.serious)).length ∧
    (countImpacts vs).moderate = (vs.filter (fun v => v.impact == Impact.moderate)).length ∧
    (countImpacts vs).minor = (vs.filter (fun v => v.impact == Impact.minor)).length := by
  have h := countImpacts_foldl vs ⟨0, 0, 0, 0⟩
  simpa [countImpacts] using h

theorem cacheLookup_mapSet (c : LocalCache) (k : String) (e : CacheEntry) :
    cacheLookup (mapSet c k e) k = some e := by
  induction c with
  | nil => simp [mapSet, cacheLookup, List.find?]
  | cons p rest ih =>
    obtain ⟨k', x'⟩ := p
    by_cases h : k' == k
    · simp [mapSet, h, cacheLookup, List.find?]
    · simp only [mapSet, h, Bool.false_eq_true, if_false]
      simp only [cacheLookup, List.find?, h] at ih ⊢
      exact ih

theorem jsPriority_default (v : JsValue) (h : ¬ isPriorityLiteral v) :
    jsPriority v = .medium := by
  cases v with
  | str s =>
    simp only [isPriorityLiteral, JsValue.str.injEq] at h
    push_neg at h
    obtain ⟨h1, h2, h3⟩ := h
    simp [jsPriority, h1, h2, h3]
  | null => rfl
  | undefined => rfl
  | bool b => rfl
  | num n => rfl
  | arr l => rfl
  | obj f => rfl

theorem jsEffort_default (v : JsValue) (h : ¬ isEffortLiteral v) :
    jsEffort v = .moderate := by
  cases v with
  | str s =>
    simp only [isEffortLiteral, JsValue.str.injEq] at h
    push_neg at h
    obtain ⟨h1, h2, h3⟩ := h
    simp [jsEffort, h1, h2, h3]
  | null => rfl
  | undefined => rfl
  | bool b => rfl
  | num n => rfl
  | arr l => rfl
  | obj f => rfl

theorem jsLang_default (v : JsValue) (h : ¬ isLangLiteral v) :
    jsLang v = .html := by
  cases v with
  | str s =>
    simp only [isLangLiteral, JsValue.str.injEq] at h
    push_neg at h
    obtain ⟨h1, h2, h3⟩ := h
    simp [jsLang, h1, h2, h3]
  | null => rfl
  | undefined => rfl
  | bool b => rfl
  | num n => rfl
  | arr l => rfl
  | obj f => rfl

theorem jsResourceType_default (v : JsValue) (h : ¬ isResourceTypeLiteral v) :
    jsResourceType v = .guide := by
  cases v with
  | str s =>
    simp only [isResourceTypeLiteral, JsValue.str.injEq] at h
    push_neg at h
    obtain ⟨h1, h2, h3⟩ := h
    simp [jsResourceType, jsSafe, h1, h2, h3]
  | null => rfl
  | undefined => rfl
  | bool b => rfl
  | num n => rfl
  | arr l => rfl
  | obj f => rfl

theorem jsArrOr_of_not_array (v : JsValue) (h : jsIsArray v = false) :
    jsArrOr v = [] := by
  cases v <;> simp_all [jsIsArray, jsArrOr]

/-! ## Claim theorems -/

/-- Claim C8: `scoreFromCounts` equals
`max(0, 100 − (critical·20 + serious·10 + moderate·5 + minor·2))` (the
`Math.round` is the identity on these integer values), always lies in
`[0, 100]`, and increasing any single severity count never increases it. -/
theorem scoreFromCounts_spec : ∀ c : Counts,
    scoreFromCounts c =
      max 0 (100 - ((c.critical : Int) * 20 + (c.serious : Int) * 10 +
        (c.moderate : Int) * 5 + (c.minor : Int) * 2)) ∧
    0 ≤ scoreFromCounts c ∧ scoreFromCounts c ≤ 100 ∧
    scoreFromCounts { c with critical := c.critical + 1 } ≤ scoreFromCounts c ∧
    scoreFromCounts { c with serious := c.serious + 1 } ≤ scoreFromCounts c ∧
    scoreFromCounts { c with moderate := c.moderate + 1 } ≤ scoreFromCounts c ∧
    scoreFromCounts { c with minor := c.minor + 1 } ≤ scoreFromCounts c := by
  intro c
  simp only [scoreFromCounts]
  refine ⟨max_comm _ _, le_max_right _ _, ?_, ?_, ?_, ?_, ?_⟩ <;>
    · simp only [max_def]
      push_cast
      split_ifs <;> omega

/-- Claim C9: `gradeFromScore` (a pure, total, deterministic function) maps
scores ≥ 90 to A, 80–89 to B, 70–79 to C, 60–69 to D, and anything below 60
to F; in particular 90 ↦ A, 89 ↦ B, 80 ↦ B, 69 ↦ D, 0 ↦ F. -/
theorem gradeFromScore_spec :
    (∀ s : Int, 90 ≤ s → gradeFromScore s = .A) ∧
    (∀ s : Int, 80 ≤ s → s < 90 → gradeFromScore s = .B) ∧
    (∀ s : Int, 70 ≤ s → s < 80 → gradeFromScore s = .C) ∧
    (∀ s : Int, 60 ≤ s → s < 70 → gradeFromScore s = .D) ∧
    (∀ s : Int, s < 60 → gradeFromScore s = .F) ∧
    gradeFromScore 90 = .A ∧ gradeFromScore 89 = .B ∧ gradeFromScore 80 = .B ∧
    gradeFromScore 69 = .D ∧ gradeFromScore 0 = .F := by
  refine ⟨?_, ?_, ?_, ?_, ?_, by decide, by decide, by decide, by decide, by decide⟩ <;>
    · intro s
      intros
      simp only [gradeFromScore]
      split_ifs <;> first | rfl | omega

/-- Claim C9 witness: the range clauses of `gradeFromScore_spec` evaluated at
95, 85, 75, 65 and 59. -/
theorem gradeFromScore_spec_witness :
    gradeFromScore 95 = .A ∧ gradeFromScore 85 = .B ∧ gradeFromScore 75 = .C ∧
    gradeFromScore 65 = .D ∧ gradeFromScore 59 = .F :=
  ⟨gradeFromScore_spec.1 95 (by decide),
   gradeFromScore_spec.2.1 85 (by decide) (by decide),
   gradeFromScore_spec.2.2.1 75 (by decide) (by decide),
   gradeFromScore_spec.2.2.2.1 65 (by decide) (by decide),
   gradeFromScore_spec.2.2.2.2.1 59 (by decide)⟩

/-- Claim C1 (amended): when the generative response cannot be parsed as the
expected structure (e.g. non-JSON text), the whole batch degrades to zero
recommendations — `generateRecommendations` returns an empty list with the
violation list and recommendation cache unchanged, and no exception escapes —
whereas a failure of the service call itself propagates as an exception out
of `generateRecommendations` (the call sits outside the `try`/`catch`). -/
theorem generateRecommendations_parse_failure_degrades :
    ∀ (pending : List PendingViolation) (violations : List AccessibilityViolation)
      (recoCache : List (String × Recommendation)),
    (generateRecommendations (.success none) pending violations recoCache).2 =
      .ok ([], violations, recoCache) ∧
    (generateRecommendations .failure pending violations recoCache).2 = .error () :=
  fun _ _ _ => ⟨rfl, rfl⟩

/-- Claim C1 counterexample: at a concrete input where the generative service
call itself fails, `generateRecommendations` does not return an empty list —
the exception propagates (`error`), so the claim's “if the service call
fails … no exception escapes” is false on the code. -/
theorem generateRecommendations_service_failure_cx :
    (generateRecommendations .failure [] [] []).2 = .error () ∧
    ((generateRecommendations .failure [] [] []).2).toOption = none :=
  ⟨rfl, rfl⟩

/-- Claim C6 (amended): `generateRecommendations` builds exactly one request
to the generative service per invocation, whose payload carries one summary
per pending violation in input order — with no deduplication by rule id. -/
theorem generateRecommendations_single_request_payload :
    ∀ (outcome : CallOutcome) (pending : List PendingViolation)
      (violations : List AccessibilityViolation)
      (recoCache : List (String × Recommendation)),
    (generateRecommendations outcome pending violations recoCache).1 =
      [requestPayload pending] ∧
    (requestPayload pending).map PayloadItem.id = pending.map PendingViolation.id ∧
    (requestPayload pending).length = pending.length := by
  intro outcome pending violations recoCache
  refine ⟨?_, ?_, ?_⟩
  · cases outcome <;> rfl
  · simp only [requestPayload, List.map_map]
    rfl
  · simp [requestPayload]

/-- Claim C6 counterexample: a batch containing the same rule id twice yields
a request payload in which that id appears twice — the code performs no
deduplication by rule id before sending. -/
theorem requestPayload_duplicate_id_cx :
    ((requestPayload [dupPending, dupPending]).map PayloadItem.id).count "dup" = 2 := by
  rfl

/-- Claim C4: `normalizeRecommendation` is total (defined, without failure,
for every modelled JS value): a candidate without a truthy `id` is rejected
entirely (`none`); every candidate with a truthy `id` yields a
`Recommendation` — whose `priority`/`effort`/`language`/resource-`type`
fields lie in the allowed literal sets by type, and whose required string
fields are all present (defaulted when missing or wrong-typed) — with
`medium`/`moderate`/`html` substituted when the raw field is not one of the
allowed literals and empty lists when `steps`/`resources` are not arrays;
any resource `type` outside its literal set is coerced to `guide`. -/
theorem normalizeRecommendation_total_spec :
    (∀ raw : JsValue,
      ((truthy raw = false ∨ truthy (getField raw "id") = false) →
        normalizeRecommendation raw = none) ∧
      (truthy raw = true → truthy (getField raw "id") = true →
        ∃ rec, normalizeRecommendation raw = some rec ∧
          (¬ isPriorityLiteral (getField raw "priority") → rec.priority = .medium) ∧
          (¬ isEffortLiteral (getField raw "effort") → rec.effort = .moderate) ∧
          (¬ isLangLiteral (getField (getField raw "codeExample") "language") →
            rec.codeExample.language = .html) ∧
          (jsIsArray (getField raw "steps") = false → rec.steps = []) ∧
          (jsIsArray (getField raw "resources") = false → rec.resources = []))) ∧
    (∀ v : JsValue, ¬ isResourceTypeLiteral v → jsResourceType v = .guide) := by
  refine ⟨?_, jsResourceType_default⟩
  intro raw
  constructor
  · intro h
    rcases h with h | h <;> simp [normalizeRecommendation, h]
  · intro h1 h2
    refine ⟨{ id := jsSafe (getField raw "id") ""
              title := jsSafe (getField raw "title") "General Accessibility Improvement"
              description := jsSafe (getField raw "description")
                "Refer to relevant WCAG and fix accordingly."
              priority := jsPriority (getField raw "priority")
              effort := jsEffort (getField raw "effort")
              impact := jsSafe (getField raw "impact") "Improves overall accessibility"
              steps := jsArrOr (getField raw "steps")
              codeExample := {
                before := jsSafe (getField (getField raw "codeExample") "before") ""
                after := jsSafe (getField (getField raw "codeExample") "after") ""
                language := jsLang (getField (getField raw "codeExample") "language") }
              resources := (jsArrOr (getField raw "resources")).map fun r =>
                { title := jsSafe (getField r "title") ""
                  url := jsSafe (getField r "url") ""
                  type := jsResourceType (getField r "type") } }, ?_, ?_, ?_, ?_, ?_, ?_⟩
    · simp [normalizeRecommendation, h1, h2]
    · intro hp
      exact jsPriority_default _ hp
    · intro he
      exact jsEffort_default _ he
    · intro hl
      exact jsLang_default _ hl
    · intro hs
      exact jsArrOr_of_not_array _ hs
    · intro hs
      simp [jsArrOr_of_not_array _ hs]

/-- Claim C4 witness: `normalizeRecommendation_total_spec` applied at the
concrete candidate `raw4` (truthy id, wrong-typed `priority`, non-array
`steps`): normalization succeeds with defaulted `priority` and empty
`steps`. -/
theorem normalizeRecommendation_total_spec_witness :
    ∃ rec, normalizeRecommendation raw4 = some rec ∧
      rec.priority = .medium ∧ rec.steps = [] := by
  obtain ⟨rec, hsome, hp, he, hl, hs, hr⟩ :=
    (normalizeRecommendation_total_spec.1 raw4).2 rfl rfl
  refine ⟨rec, hsome, hp ?_, hs rfl⟩
  rw [show getField raw4 "priority" = .str "urgent" from rfl]
  simp [isPriorityLiteral]

theorem runPipeline_ok_fields :
    ∀ (env : AnalyzeEnv) (url : String) (r : AccessibilityResults),
    runPipeline env url = .ok r →
    r.passes = [] ∧
    r.summary.total = r.violations.length ∧
    r.summary.critical = (countImpacts r.violations).critical ∧
    r.summary.serious = (countImpacts r.violations).serious ∧
    r.summary.moderate = (countImpacts r.violations).moderate ∧
    r.summary.minor = (countImpacts r.violations).minor ∧
    (∀ s : Int, env.lighthouse = .result (some s) → ¬ s = 0 → r.score = s) ∧
    ((env.lighthouse = .result (some 0) ∨ env.lighthouse = .result none) →
      r.score = scoreFromCounts (countImpacts r.violations)) := by
  intro env url r h
  obtain ⟨lh, ax, oa, now, ts⟩ := env
  cases lh with
  | threw => simp [runPipeline, runLighthouse] at h
  | result os =>
    cases ax with
    | threw => simp [runPipeline, runLighthouse, runAxe] at h
    | result ovs =>
      cases oa with
      | failure =>
        simp [runPipeline, runLighthouse, runAxe, generateRecommendations] at h
      | success parsed =>
        simp only [runPipeline, runLighthouse, runAxe, generateRecommendations,
          Except.ok.injEq] at h
        subst h
        refine ⟨rfl, rfl, rfl, rfl, rfl, rfl, ?_, ?_⟩
        · intro s hs hs0
          dsimp only at hs
          injection hs with hs
          subst hs
          simp [assembleResult, hs0]
        · intro hcase
          rcases hcase with hc | hc <;>
            · dsimp only at hc
              injection hc with hc
              subst hc
              rfl

/-- Claim C7: every AuditResult the pipeline produces satisfies
`summary.total = violations.length + passes.length`, and each severity
counter equals the number of violations carrying that impact; the standalone
`buildSummary` helper satisfies the same invariant for any violation and
pass lists. -/
theorem auditResult_summary_invariant :
    (∀ (env : AnalyzeEnv) (url : String) (r : AccessibilityResults),
      runPipeline env url = .ok r →
      r.summary.total = r.violations.length + r.passes.length ∧
      r.summary.critical = (r.violations.filter (fun v => v.impact == Impact.critical)).length ∧
      r.summary.serious = (r.violations.filter (fun v => v.impact == Impact.serious)).length ∧
      r.summary.moderate = (r.violations.filter (fun v => v.impact == Impact.moderate)).length ∧
      r.summary.minor = (r.violations.filter (fun v => v.impact == Impact.minor)).length) ∧
    (∀ (violations : List AccessibilityViolation) (passes : List AccessibilityPass),
      (buildSummary violations passes).total = violations.length + passes.length ∧
      (buildSummary violations passes).critical =
        (violations.filter (fun v => v.impact == Impact.critical)).length ∧
      (buildSummary violations passes).serious =
        (violations.filter (fun v => v.impact == Impact.serious)).length ∧
      (buildSummary violations passes).moderate =
        (violations.filter (fun v => v.impact == Impact.moderate)).length ∧
      (buildSummary violations passes).minor =
        (violations.filter (fun v => v.impact == Impact.minor)).length) := by
  constructor
  · intro env url r h
    obtain ⟨hp, ht, hc, hs, hm, hmi, _, _⟩ := runPipeline_ok_fields env url r h
    obtain ⟨fc, fs, fm, fmi⟩ := countImpacts_eq_filter r.violations
    rw [hp, ht, hc, hs, hm, hmi]
    simp [fc, fs, fm, fmi]
  · intro violations passes
    obtain ⟨fc, fs, fm, fmi⟩ := countImpacts_eq_filter violations
    simp [buildSummary, fc, fs, fm, fmi]

/-- Claim C7 witness: `auditResult_summary_invariant` applied to the concrete
audit of `w7Env` (one critical violation, Engine B score 77). -/
theorem auditResult_summary_invariant_witness :
    w7res.summary.total = w7res.violations.length + w7res.passes.length ∧
    w7res.summary.critical = (w7res.violations.filter (fun v => v.impact == Impact.critical)).length ∧
    w7res.summary.serious = (w7res.violations.filter (fun v => v.impact == Impact.serious)).length ∧
    w7res.summary.moderate = (w7res.violations.filter (fun v => v.impact == Impact.moderate)).length ∧
    w7res.summary.minor = (w7res.violations.filter (fun v => v.impact == Impact.minor)).length :=
  auditResult_summary_invariant.1 w7Env "u" w7res rfl

/-- Claim C3 (amended): the final `AuditResult.score` equals Engine B's
reported score whenever that score is present *and nonzero*; when Engine B's
score is absent — or zero, which JS `||` treats as absent — the score is
`scoreFromCounts` over the severity counts of the final violation set. -/
theorem runPipeline_score_selection :
    (∀ (env : AnalyzeEnv) (url : String) (r : AccessibilityResults) (s : Int),
      env.lighthouse = .result (some s) → ¬ s = 0 → runPipeline env url = .ok r →
      r.score = s) ∧
    (∀ (env : AnalyzeEnv) (url : String) (r : AccessibilityResults),
      (env.lighthouse = .result (some 0) ∨ env.lighthouse = .result none) →
      runPipeline env url = .ok r →
      r.score = scoreFromCounts (countImpacts r.violations)) := by
  constructor
  · intro env url r s hl hs h
    exact (runPipeline_ok_fields env url r h).2.2.2.2.2.2.1 s hl hs
  · intro env url r hl h
    exact (runPipeline_ok_fields env url r h).2.2.2.2.2.2.2 hl

/-- Claim C3 witness: `runPipeline_score_selection` at the concrete run
`w3Env` (Engine B reports 50): the final score is Engine B's 50. -/
theorem runPipeline_score_selection_witness : w3res.score = 50 :=
  runPipeline_score_selection.1 w3Env "u" w3res 50 rfl (by decide) rfl

/-- Claim C3 counterexample: at a concrete run where Engine B is present and
reports the valid score 0 (an integer in [0,100]) and Engine A reports no
violations, the final score is 100 — the fallback — not Engine B's 0:
`lhScore || scoreFromCounts(counts)` discards a zero score. -/
theorem runPipeline_zero_engineB_score_cx :
    (runPipeline cx3Env "u").map AccessibilityResults.score = .ok 100 ∧
    cx3Env.lighthouse = .result (some 0) :=
  ⟨rfl, rfl⟩

/-- Claim C2 (amended): an Engine B run that resolves without a numeric score
is non-fatal — `analyzeLocal` still produces a complete AuditResult, with the
score substituted by the count-based fallback on a fresh computation; an
Engine B rejection, by contrast, propagates and fails the audit (see the
counterexample). -/
theorem analyzeLocal_engineB_null_score_nonfatal :
    ∀ (vs : Option (List RawAxeViolation)) (parsed : Option JsValue)
      (now : Nat) (ts url : String) (cache : LocalCache),
    noValidHit cache url now →
    ∃ r, (analyzeLocal ⟨.result none, .result vs, .success parsed, now, ts⟩ url cache).1 = .ok r ∧
      r.score = scoreFromCounts (countImpacts r.violations) := by
  intro vs parsed now ts url cache hNV
  have hred : analyzeLocal ⟨.result none, .result vs, .success parsed, now, ts⟩ url cache =
      runFreshAnalysis ⟨.result none, .result vs, .success parsed, now, ts⟩ url cache := by
    cases hlk : cacheLookup cache (cacheKey url) with
    | none => simp only [analyzeLocal, hlk]
    | some hit =>
      have hexp := hNV hit hlk
      simp only [analyzeLocal, hlk]
      rw [if_neg (Nat.not_lt.mpr hexp)]
  rw [hred]
  exact ⟨_, rfl, rfl⟩

/-- Claim C2 witness: `analyzeLocal_engineB_null_score_nonfatal` at the
concrete run `w2Env` (Engine B resolves with `null`, Engine A succeeds). -/
theorem analyzeLocal_engineB_null_score_nonfatal_witness :
    ∃ r, (analyzeLocal w2Env "u" []).1 = .ok r ∧
      r.score = scoreFromCounts (countImpacts r.violations) :=
  analyzeLocal_engineB_null_score_nonfatal (some []) (some (.obj [])) 0 "t" "u" []
    (by intro hit h; simp [cacheLookup] at h)

/-- Claim C2 counterexample: at a concrete input where Engine B rejects while
Engine A succeeds, `analyzeLocal` produces no AuditResult at all — the error
propagates (the `finally` in `runLighthouse` only kills the browser), so
“Engine B failure is non-fatal” is false on the code. -/
theorem analyzeLocal_engineB_throw_fatal_cx :
    (analyzeLocal cx2Env "u" []).1 = .error () ∧
    ((analyzeLocal cx2Env "u" []).1).toOption = none ∧
    cx2Env.lighthouse = .threw :=
  ⟨rfl, rfl, rfl⟩

/-- Claim C5: after a fresh `analyzeLocal(url)` call at time `now₁` stores
its result, a second call for the same url before `now₁ + 10 min` returns
the stored AuditResult (the same cached object) and leaves the cache
untouched, whatever its engine environment — no engine work is performed —
while a call at or after the expiry timestamp runs the full fresh pipeline
again. -/
theorem analyzeLocal_cache_correctness :
    ∀ (env1 env2 env3 : AnalyzeEnv) (url : String) (cache cache1 : LocalCache)
      (r : AccessibilityResults),
    cacheLookup cache (cacheKey url) = none →
    analyzeLocal env1 url cache = (.ok r, cache1) →
    env2.now < env1.now + CACHE_TTL_MS →
    env1.now + CACHE_TTL_MS ≤ env3.now →
    analyzeLocal env2 url cache1 = (.ok r, cache1) ∧
    analyzeLocal env3 url cache1 = runFreshAnalysis env3 url cache1 := by
  intro env1 env2 env3 url cache cache1 r h0 h1 h2 h3
  simp only [analyzeLocal, h0] at h1
  cases hp : runPipeline env1 url with
  | error e =>
    simp only [runFreshAnalysis, hp] at h1
    simp at h1
  | ok data =>
    simp only [runFreshAnalysis, hp] at h1
    rw [Prod.mk.injEq] at h1
    obtain ⟨h1a, h1b⟩ := h1
    rw [Except.ok.injEq] at h1a
    subst h1a
    subst h1b
    have hlk := cacheLookup_mapSet cache (cacheKey url)
      { data := data, expires := env1.now + CACHE_TTL_MS }
    constructor
    · simp only [analyzeLocal, hlk]
      rw [if_pos h2]
    · simp only [analyzeLocal, hlk]
      rw [if_neg (by omega)]

/-- Claim C5 witness: `analyzeLocal_cache_correctness` on the concrete
scenario — first call at time 0 stores `w5res`; the second call 1 ms later
(with every engine failing) still returns `w5res` and leaves the cache
unchanged; the third call at the expiry timestamp runs the fresh pipeline. -/
theorem analyzeLocal_cache_correctness_witness :
    analyzeLocal w5Env2 "u" w5cache1 = (.ok w5res, w5cache1) ∧
    analyzeLocal w5Env3 "u" w5cache1 = runFreshAnalysis w5Env3 "u" w5cache1 :=
  analyzeLocal_cache_correctness w5Env1 w5Env2 w5Env3 "u" [] w5cache1 w5res
    rfl rfl (by decide) (by decide)

/-- Claim C10: the audit cache is updated only on success — when the queued
job's pipeline throws, `analyzeLocal` propagates the error and writes nothing
to the cache for that key, and a subsequent call for the same url runs the
full fresh pipeline again. -/
theorem analyzeLocal_pipeline_error_no_cache_write :
    ∀ (env env2 : AnalyzeEnv) (url : String) (cache : LocalCache),
    noValidHit cache url env.now →
    runPipeline env url = .error () →
    env.now ≤ env2.now →
    analyzeLocal env url cache = (.error (), cache) ∧
    analyzeLocal env2 url cache = runFreshAnalysis env2 url cache := by
  intro env env2 url cache hNV hp hle
  cases hlk : cacheLookup cache (cacheKey url) with
  | none =>
    constructor
    · simp only [analyzeLocal, hlk, runFreshAnalysis, hp]
    · simp only [analyzeLocal, hlk]
  | some hit =>
    have hexp := hNV hit hlk
    constructor
    · simp only [analyzeLocal, hlk]
      rw [if_neg (by omega)]
      simp only [runFreshAnalysis, hp]
    · simp only [analyzeLocal, hlk]
      rw [if_neg (by omega)]

/-- Claim C10 witness: `analyzeLocal_pipeline_error_no_cache_write` on the
concrete run `w10Env` where Engine A rejects: the call fails, the cache stays
empty, and a later call runs the fresh pipeline. -/
theorem analyzeLocal_pipeline_error_no_cache_write_witness :
    analyzeLocal w10Env "u" [] = (.error (), []) ∧
    analyzeLocal w10Env2 "u" [] = runFreshAnalysis w10Env2 "u" [] :=
  analyzeLocal_pipeline_error_no_cache_write w10Env w10Env2 "u" []
    (by intro hit h; simp [cacheLookup] at h) rfl (by decide)
